import Mathlib

/-!
Shallow embedding of the note-editing session controller
(src/libs/web/state/editor.ts) and of the global route-error handler
(src/components/route-error-handler.tsx), with theorems about the
debounced commit buffer, commit routing, the backlink scan, the
hover-link dispatcher, the save lifecycle and the error-handler policy.

Conventions: JS truthiness of optional strings is embedded explicitly
(`none` and `some ""` are both falsy where the source tests truthiness);
fallible results are `Option`/`Except`; the debounce wrapper provided by
the `use-debounce` library is embedded by its trailing-edge semantics
(each call stores the latest arguments and re-arms a fixed 500 ms timer;
the wrapped function runs once per elapse with the stored arguments, and
the wrapper itself returns before the wrapped function runs).
-/

namespace Heilou

/-- A content/parent patch: the `Partial<NoteModel>` values that flow
through `onNoteChange` (only `content` and `pid` are ever set there). -/
structure NotePatch where
  content : Option String := none
  pid : Option String := none
  deriving Repr, DecidableEq

/-- Fixed debounce delay of `useDebouncedCallback(..., 500)` at
editor.ts:72, in milliseconds. -/
def DEBOUNCE_DELAY_MS : Nat := 500

/-- Timed model of the debounce wrapper around `onNoteChange`
(editor.ts:56-73): `debSchedule pend calls` returns the commits the
buffer dispatches, given the currently armed `(deadline, patch)` pair (if
any) and the remaining calls as `(time, patch)` pairs in time order. A
call at time `t` stores its patch and re-arms the timer for
`t + DEBOUNCE_DELAY_MS`; an armed timer whose deadline is not after the
next call's time fires first, exactly once, with the stored patch. -/
def debSchedule {α : Type} : Option (Nat × α) → List (Nat × α) → List (Nat × α)
  | some dp, [] => [dp]
  | none, [] => []
  | some (d, q), (t, p) :: rest =>
    if d ≤ t then (d, q) :: debSchedule (some (t + DEBOUNCE_DELAY_MS, p)) rest
    else debSchedule (some (t + DEBOUNCE_DELAY_MS, p)) rest
  | none, (t, p) :: rest => debSchedule (some (t + DEBOUNCE_DELAY_MS, p)) rest

/-- Within-one-debounce-window condition: every call arrives strictly
before the previous call's deadline, so the timer is always reset before
it can fire. -/
def withinWindow {α : Type} : List (Nat × α) → Bool
  | [] => true
  | [_] => true
  | (t, _) :: (t2, p2) :: rest =>
    decide (t2 < t + DEBOUNCE_DELAY_MS) && withinWindow ((t2, p2) :: rest)

lemma debSchedule_armed {α : Type} (t : Nat) (p : α) (rest : List (Nat × α))
    (h : withinWindow ((t, p) :: rest) = true) :
    debSchedule (some (t + DEBOUNCE_DELAY_MS, p)) rest =
      [((rest.getLastD (t, p)).1 + DEBOUNCE_DELAY_MS, (rest.getLastD (t, p)).2)] := by
  induction rest generalizing t p with
  | nil => simp [debSchedule]
  | cons hd tl ih =>
    obtain ⟨t2, p2⟩ := hd
    have h1 : t2 < t + DEBOUNCE_DELAY_MS := by
      simp only [withinWindow, Bool.and_eq_true, decide_eq_true_eq] at h
      exact h.1
    have h2 : withinWindow ((t2, p2) :: tl) = true := by
      simp only [withinWindow, Bool.and_eq_true, decide_eq_true_eq] at h
      exact h.2
    have hnot : ¬ (t + DEBOUNCE_DELAY_MS ≤ t2) := by omega
    simp only [debSchedule, if_neg hnot, List.getLastD_cons]
    exact ih t2 p2 h2

/-- C2: for every nonempty sequence of content-patch calls to the debounced
commit buffer that all fall within one debounce window (each call resets
the 500 ms timer before it fires), exactly one commit executes — at the
last call's time plus the fixed 500 ms delay — and it carries the patch of
the last call; intermediate patches are superseded and never committed. -/
theorem onNoteChange_debounce_last_write_wins (t : Nat) (p : NotePatch)
    (rest : List (Nat × NotePatch))
    (h : withinWindow ((t, p) :: rest) = true) :
    debSchedule none ((t, p) :: rest) =
      [((rest.getLastD (t, p)).1 + DEBOUNCE_DELAY_MS, (rest.getLastD (t, p)).2)] := by
  simp only [debSchedule]
  exact debSchedule_armed t p rest h

/-- Concrete run of the previous theorem: three calls at 0, 100 and 400 ms
coalesce into the single commit `(900, "c")`. -/
theorem onNoteChange_debounce_last_write_wins_witness :
    withinWindow [(0, ({ content := some "a" } : NotePatch)),
        (100, { content := some "b" }), (400, { content := some "c" })] = true ∧
    debSchedule none [(0, ({ content := some "a" } : NotePatch)),
        (100, { content := some "b" }), (400, { content := some "c" })] =
      [(900, ({ content := some "c" } : NotePatch))] := by
  refine ⟨by decide, ?_⟩
  have h := onNoteChange_debounce_last_write_wins 0 { content := some "a" }
    [(100, { content := some "b" }), (400, { content := some "c" })] (by decide)
  simpa using h

/-- Snapshot stored in the local note cache (`NoteCacheItem`); `linkIds`
is optional in the source (`value.linkIds?.includes(...)`). -/
structure NoteCacheItem where
  id : String
  title : String := ""
  linkIds : Option (List String) := none
  deriving Repr, DecidableEq

/-- Embeds the visitor test `value.linkIds?.includes(note.id)`
(editor.ts:157): an absent `linkIds` makes the optional chain undefined,
which is falsy. -/
def linkIdsInclude (l : Option (List String)) (nid : String) : Bool :=
  match l with
  | none => false
  | some ids => ids.contains nid

/-- Shallow embedding of `getBackLinks` (editor.ts:151-162): the guard
`if (!note?.id) return linkNotes` returns the empty accumulator when the
note is absent, its id absent, or the empty string (all falsy); otherwise
`noteCache.iterate` visits every snapshot in encounter order, pushing the
ones whose `linkIds` contains the current id. The cache is modelled as
the list of its snapshots in iteration order. -/
def getBackLinks (noteId : Option String) (cache : List NoteCacheItem) :
    List NoteCacheItem :=
  match noteId with
  | none => []
  | some nid =>
    if nid = "" then []
    else cache.foldl (fun acc v => if linkIdsInclude v.linkIds nid then acc ++ [v] else acc) []

lemma foldl_push_filter {α : Type} (p : α → Bool) (acc : List α) (l : List α) :
    l.foldl (fun a v => if p v then a ++ [v] else a) acc = acc ++ l.filter p := by
  induction l generalizing acc with
  | nil => simp
  | cons hd tl ih =>
    by_cases h : p hd <;> simp [List.filter_cons, h, ih]

/-- C4: over a cache of snapshots, `getBackLinks` returns exactly the
snapshots whose `linkIds` contain the current note's id, in cache
iteration (encounter) order — i.e. the filter of the cache, whose length
counts the matching snapshots — and when no note id is available it
returns the empty result. -/
theorem getBackLinks_filter (nid : String) (cache : List NoteCacheItem)
    (h : nid ≠ "") :
    getBackLinks (some nid) cache = cache.filter (fun v => linkIdsInclude v.linkIds nid) ∧
    (getBackLinks (some nid) cache).length =
      cache.countP (fun v => linkIdsInclude v.linkIds nid) ∧
    getBackLinks none cache = [] := by
  have hmain : getBackLinks (some nid) cache =
      cache.filter (fun v => linkIdsInclude v.linkIds nid) := by
    simp only [getBackLinks, if_neg h]
    simpa using foldl_push_filter (fun v => linkIdsInclude v.linkIds nid) [] cache
  refine ⟨hmain, ?_, rfl⟩
  rw [hmain, List.countP_eq_length_filter]

/-- Concrete run of the backlink scan: of three cached snapshots, exactly
the two whose `linkIds` contain "n1" are returned, in cache order. -/
theorem getBackLinks_filter_witness :
    getBackLinks (some "n1")
        [{ id := "a", linkIds := some ["n1", "n2"] },
         { id := "b", linkIds := none },
         { id := "c", linkIds := some ["n1"] }] =
      [{ id := "a", linkIds := some ["n1", "n2"] },
       { id := "c", linkIds := some ["n1"] }] ∧
    getBackLinks none
        [{ id := "a", linkIds := some ["n1", "n2"] }] = [] := by
  have h := getBackLinks_filter "n1"
    [{ id := "a", linkIds := some ["n1", "n2"] },
     { id := "b", linkIds := none },
     { id := "c", linkIds := some ["n1"] }] (by decide)
  have h2 := getBackLinks_filter "n1"
    [{ id := "a", linkIds := some ["n1", "n2"] }] (by decide)
  exact ⟨by rw [h.1]; decide, h2.2.2⟩

/-- Confirmation message set by the unsaved-changes guard
(editor.ts:206). -/
def UNSAVED_MESSAGE : String := "您有未保存的更改，确定要离开吗？"

/-- Shallow embedding of `handleBeforeUnload` (editor.ts:203-216): the
guard fires — assigning `e.returnValue` and returning the confirmation
message — exactly when `isEditing && currentContent !== note?.content`.
`noteContent = none` embeds an unbound note (whose optional-chained
content is `undefined`, never equal to a string). The result is the
message handed to the unload event, or `none` when the guard does not
fire. -/
def handleBeforeUnload (isEditing : Bool) (currentContent : String)
    (noteContent : Option String) : Option String :=
  if isEditing && decide (some currentContent ≠ noteContent) then some UNSAVED_MESSAGE
  else none

/-- C7: the unsaved-changes guard triggers if and only if the session is
in edit mode and the current draft content differs from the bound note's
last-synced persisted content; with unchanged content, or outside edit
mode, it does not trigger. -/
theorem handleBeforeUnload_guard_iff (e : Bool) (c : String) (n : Option String) :
    (handleBeforeUnload e c n).isSome ↔ (e = true ∧ some c ≠ n) := by
  by_cases hn : some c = n <;> cases e <;>
    simp [handleBeforeUnload, hn]

/-- Note data carried by persistence results (the fields of `NoteModel`
that this core reads). -/
structure NoteModel where
  id : String
  content : String := ""
  pid : Option String := none
  deriving Repr, DecidableEq

/-- Shallow embedding of `onCreateLink` (editor.ts:75-86): the result of
`createNoteWithTitle(title)` is passed in (`none` embeds an undefined
result); an absent result throws `Error('todo')`, embedded as
`Except.error` propagating to the caller; otherwise the canonical address
`/{id}` of the created note is returned. -/
def onCreateLink (createResult : Option NoteModel) : Except String String :=
  match createResult with
  | none => Except.error "todo"
  | some r => Except.ok ("/" ++ r.id)

/-- C8: when note creation returns a result, `onCreateLink` returns the
created note's canonical address `/{id}`; when creation returns no
result, the call fails with a thrown creation-failed error that
propagates to the caller, and no address is returned. -/
theorem onCreateLink_address_or_error (res : Option NoteModel) :
    (∀ r, res = some r → onCreateLink res = Except.ok ("/" ++ r.id)) ∧
    (res = none → ∃ msg, onCreateLink res = Except.error msg) := by
  constructor
  · intro r hr; subst hr; rfl
  · intro hr; subst hr; exact ⟨"todo", rfl⟩

/-- Concrete runs of `onCreateLink`: a created note with id "abc123"
yields the address "/abc123"; an absent result yields an error. -/
theorem onCreateLink_address_or_error_witness :
    onCreateLink (some { id := "abc123" }) = Except.ok "/abc123" ∧
    ∃ msg, onCreateLink none = Except.error msg :=
  ⟨(onCreateLink_address_or_error (some { id := "abc123" })).1 _ rfl,
   (onCreateLink_address_or_error none).2 rfl⟩

/-- Modelled from the spec: the internal note-link address pattern tested
by `isNoteLink` (libs/shared/note, not under src/) — a leading `/`
followed by a nonempty alphanumeric note id, e.g. `/abc123`. -/
def isNoteLink (href : String) : Bool :=
  match href.toList with
  | [] => false
  | c :: rest => c == '/' && !rest.isEmpty && rest.all (fun ch => ch.isAlphanum)

/-- Embeds `href.slice(1)`: the string without its first character. -/
def strTail (s : String) : String :=
  ⟨s.toList.drop 1⟩

/-- Modelled from the spec: the preview and link-toolbar portal state
(`PortalState`, not under src/), per §4.4 — each portal holds an anchor
element, an open flag, and its data (`previewId` for the note preview,
`toolbarHref` for the external-link toolbar). Anchor elements are
identified by numbers. -/
structure PortalUI where
  previewOpen : Bool := false
  previewId : Option String := none
  previewAnchor : Option Nat := none
  toolbarOpen : Bool := false
  toolbarHref : Option String := none
  toolbarAnchor : Option Nat := none
  deriving Repr, DecidableEq

/-- Modelled from the spec: `preview.close()` closes the note preview. -/
def previewClose (ui : PortalUI) : PortalUI :=
  { ui with previewOpen := false }

/-- Modelled from the spec: `preview.setData({ id })` sets (or clears)
the note-preview target id. -/
def previewSetData (i : Option String) (ui : PortalUI) : PortalUI :=
  { ui with previewId := i }

/-- Modelled from the spec: `preview.setAnchor(el)` anchors the note
preview to an element and opens it. -/
def previewSetAnchor (el : Nat) (ui : PortalUI) : PortalUI :=
  { ui with previewAnchor := some el, previewOpen := true }

/-- Modelled from the spec: `linkToolbar.setData({ href })` sets the
external-link toolbar's href payload. -/
def toolbarSetData (h : String) (ui : PortalUI) : PortalUI :=
  { ui with toolbarHref := some h }

/-- Modelled from the spec: `linkToolbar.setAnchor(el)` anchors the
external-link toolbar to an element and opens it. -/
def toolbarSetAnchor (el : Nat) (ui : PortalUI) : PortalUI :=
  { ui with toolbarAnchor := some el, toolbarOpen := true }

/-- The hovered element, as read by `onHoverLink`: its identity, its
`href` attribute (`none` when absent), and whether its class list
contains `bookmark`. -/
structure HoverTarget where
  elem : Nat
  href : Option String := none
  isBookmark : Bool := false
  deriving Repr, DecidableEq

/-- Shallow embedding of `onHoverLink` (editor.ts:122-147): inert outside
a browser or when the editor is read-only, inert on `bookmark` elements;
for an internal note link it closes the preview, sets its target to the
href without the leading `/`, and re-anchors (hence reopens) it on the
element; for any other href it opens the link toolbar on the element with
the raw href; with no href it clears the note-preview target only. -/
def onHoverLink (isBrowser readOnly : Bool) (tgt : HoverTarget) (ui : PortalUI) :
    PortalUI :=
  if !isBrowser || readOnly then ui
  else if tgt.isBookmark then ui
  else
    match tgt.href with
    | some h =>
      if isNoteLink h then
        previewSetAnchor tgt.elem (previewSetData (some (strTail h)) (previewClose ui))
      else
        toolbarSetAnchor tgt.elem (toolbarSetData h ui)
    | none => previewSetData none ui

/-- C5: the hover dispatcher is inert outside a browser, in read-only
mode, and on `bookmark` elements; an internal note-link href closes any
existing preview and opens a note preview anchored on the element with
the note id equal to the href without its leading `/`; a non-internal
href opens the external-link toolbar on the element with the raw href;
an absent href clears the note-preview target and leaves all other UI
state as it was. -/
theorem onHoverLink_dispatch (b ro : Bool) (tgt : HoverTarget) (ui : PortalUI) :
    ((b = false ∨ ro = true) → onHoverLink b ro tgt ui = ui) ∧
    (tgt.isBookmark = true → onHoverLink b ro tgt ui = ui) ∧
    (∀ h, b = true → ro = false → tgt.isBookmark = false → tgt.href = some h →
      isNoteLink h = true →
      onHoverLink b ro tgt ui =
        { ui with previewOpen := true, previewId := some (strTail h),
                  previewAnchor := some tgt.elem }) ∧
    (∀ h, b = true → ro = false → tgt.isBookmark = false → tgt.href = some h →
      isNoteLink h = false →
      onHoverLink b ro tgt ui =
        { ui with toolbarOpen := true, toolbarHref := some h,
                  toolbarAnchor := some tgt.elem }) ∧
    (b = true → ro = false → tgt.isBookmark = false → tgt.href = none →
      onHoverLink b ro tgt ui = { ui with previewId := none }) := by
  refine ⟨?_, ?_, ?_, ?_, ?_⟩
  · rintro (hb | hr) <;> subst_vars <;> simp [onHoverLink]
  · intro hbm
    cases b <;> cases ro <;>
      simp [onHoverLink, hbm]
  · intro h hb hr hbm hh hnl
    subst hb; subst hr
    simp [onHoverLink, hbm, hh, hnl, previewSetAnchor, previewSetData, previewClose]
  · intro h hb hr hbm hh hnl
    subst hb; subst hr
    simp [onHoverLink, hbm, hh, hnl, toolbarSetAnchor, toolbarSetData]
  · intro hb hr hbm hh
    subst hb; subst hr
    simp [onHoverLink, hbm, hh, previewSetData]

/-- Concrete runs of the hover dispatcher: an internal link `/abc123`
opens a preview with note id `abc123`; `https://example.com` opens the
toolbar with the raw href; a missing href clears an active preview's
target while leaving it otherwise untouched; a read-only editor is
inert. -/
theorem onHoverLink_dispatch_witness :
    onHoverLink true false { elem := 7, href := some "/abc123" } {} =
      { previewOpen := true, previewId := some "abc123", previewAnchor := some 7 } ∧
    onHoverLink true false { elem := 8, href := some "https://example.com" } {} =
      { toolbarOpen := true, toolbarHref := some "https://example.com",
        toolbarAnchor := some 8 } ∧
    onHoverLink true false { elem := 9, href := none }
        { previewOpen := true, previewId := some "abc123", previewAnchor := some 7 } =
      { previewOpen := true, previewId := none, previewAnchor := some 7 } ∧
    onHoverLink true true { elem := 7, href := some "/abc123" } {} = {} := by
  refine ⟨?_, ?_, ?_, ?_⟩
  · have h := (onHoverLink_dispatch true false
      { elem := 7, href := some "/abc123" } {}).2.2.1
      "/abc123" rfl rfl rfl rfl (by decide)
    rw [h]; decide
  · exact (onHoverLink_dispatch true false
      { elem := 8, href := some "https://example.com" } {}).2.2.2.1
      "https://example.com" rfl rfl rfl rfl (by decide)
  · exact (onHoverLink_dispatch true false { elem := 9, href := none }
      { previewOpen := true, previewId := some "abc123",
        previewAnchor := some 7 }).2.2.2.2 rfl rfl rfl rfl
  · exact (onHoverLink_dispatch true true { elem := 7, href := some "/abc123" } {}).1
      (Or.inr rfl)

/-- Outcome of one of the replaced global handlers: `suppressed` is the
route-cancellation branch (demote to a warning and return `true`),
`delegated` is the tail call to the previously installed original
handler, `notSuppressed` is returning `false` directly. -/
inductive HandlerOutcome where
  | suppressed
  | notSuppressed
  | delegated
  deriving Repr, DecidableEq

/-- Character-list test that `p` occurs at the start of `s`. -/
def listStartsWith : List Char → List Char → Bool
  | _, [] => true
  | [], _ :: _ => false
  | a :: s, b :: p => a == b && listStartsWith s p

/-- Character-list test that `p` occurs somewhere in `s`. -/
def listHasSub : List Char → List Char → Bool
  | s, p =>
    match s with
    | [] => listStartsWith [] p
    | _ :: rest => listStartsWith s p || listHasSub rest p

/-- Embeds JS `String.prototype.includes`: true when `pat` occurs as a
contiguous substring of `s`. -/
def strIncludes (s pat : String) : Bool :=
  listHasSub s.toList pat.toList

/-- The route-cancellation markers tested by route-error-handler.tsx. -/
def routeCancelMarkers : List String :=
  ["Route Cancelled", "Cancel rendering route", "Loading initial props cancelled"]

/-- Embeds the marker test `message.includes('Route Cancelled') || ...`
of route-error-handler.tsx. -/
def isRouteCancelMessage (msg : String) : Bool :=
  routeCancelMarkers.any (fun m => strIncludes msg m)

/-- Shallow embedding of the replaced `window.onerror`
(route-error-handler.tsx:61-89). `editToggle` embeds
`window.__EDIT_MODE_TOGGLE__`, checked first: when set the handler
returns `false` immediately. `message = none` embeds a non-string
`Event` argument, which fails the `typeof message === 'string'` test.
`hasOriginal` says whether an original `window.onerror` was installed;
when the message is not a route-cancellation marker the original handler
is tail-called if it exists, else the handler returns `false`. -/
def windowOnError (editToggle : Bool) (message : Option String)
    (hasOriginal : Bool) : HandlerOutcome :=
  if editToggle then .notSuppressed
  else if (match message with | some m => isRouteCancelMessage m | none => false) then
    .suppressed
  else if hasOriginal then .delegated
  else .notSuppressed

/-- Shallow embedding of the replaced `window.onunhandledrejection`
(route-error-handler.tsx:92-120); same structure as `windowOnError`,
over `event.reason?.message` (`none` embeds a reason without a message).
The second component records whether `event.preventDefault()` was
called, which happens exactly in the suppression branch. -/
def windowOnUnhandledRejection (editToggle : Bool) (reasonMsg : Option String)
    (hasOriginal : Bool) : HandlerOutcome × Bool :=
  if editToggle then (.notSuppressed, false)
  else if (match reasonMsg with | some m => isRouteCancelMessage m | none => false) then
    (.suppressed, true)
  else if hasOriginal then (.delegated, false)
  else (.notSuppressed, false)

/-- C9 fails as stated: when the global `__EDIT_MODE_TOGGLE__` flag is
set, an error whose message contains the marker `Route Cancelled` is not
suppressed — both handlers return `false` immediately — and an unrelated
error is not delegated to the existing original handler either, in both
cases contradicting the claim's two universally quantified branches. -/
theorem routeErrorHandler_toggle_counterexample :
    windowOnError true (some "Route Cancelled") true ≠ .suppressed ∧
    windowOnError true (some "boom") true ≠ .delegated ∧
    (windowOnUnhandledRejection true (some "Route Cancelled") true).1 ≠ .suppressed ∧
    (windowOnUnhandledRejection true (some "boom") true).1 ≠ .delegated := by
  refine ⟨?_, ?_, ?_, ?_⟩ <;> decide

/-- C9 amended: provided the global edit-mode-toggle flag is clear, an
error whose message contains a route-cancellation marker is demoted to a
warning and suppressed by both handlers (the rejection handler also
prevents the event's default), and every other error is left
unsuppressed and delegated to the previously installed original handler
exactly when one exists; when the flag is set, both handlers return
`false` immediately, neither suppressing nor delegating. -/
theorem routeErrorHandlers_policy (msg : String) (hasOrig : Bool) :
    (isRouteCancelMessage msg = true →
      windowOnError false (some msg) hasOrig = .suppressed ∧
      windowOnUnhandledRejection false (some msg) hasOrig = (.suppressed, true)) ∧
    (isRouteCancelMessage msg = false →
      windowOnError false (some msg) hasOrig =
        (if hasOrig then .delegated else .notSuppressed) ∧
      windowOnUnhandledRejection false (some msg) hasOrig =
        ((if hasOrig then .delegated else .notSuppressed), false)) ∧
    (windowOnError true (some msg) hasOrig = .notSuppressed ∧
      windowOnUnhandledRejection true (some msg) hasOrig = (.notSuppressed, false)) := by
  refine ⟨?_, ?_, ?_⟩
  · intro h
    simp [windowOnError, windowOnUnhandledRejection, h]
  · intro h
    cases hasOrig <;> simp [windowOnError, windowOnUnhandledRejection, h]
  · simp [windowOnError, windowOnUnhandledRejection]

/-- Concrete runs of the amended policy: with the flag clear, the
message `Abort fetching component for route: Cancel rendering route`
is suppressed by both handlers, while `boom` is delegated to the
installed original handler. -/
theorem routeErrorHandlers_policy_witness :
    windowOnError false (some "Abort: Cancel rendering route") true = .suppressed ∧
    windowOnUnhandledRejection false (some "Abort: Cancel rendering route") true =
      (.suppressed, true) ∧
    windowOnError false (some "boom") true = .delegated ∧
    windowOnUnhandledRejection false (some "boom") true = (.delegated, false) := by
  have h1 := (routeErrorHandlers_policy "Abort: Cancel rendering route" true).1 (by decide)
  have h2 := (routeErrorHandlers_policy "boom" true).2.1 (by decide)
  exact ⟨h1.1, h1.2, by simpa using h2.1, by simpa using h2.2⟩

/-- Editing-session fields of the controller. `isEditing` and
`currentContent` are the session-state fields used throughout editor.ts
(their React state cells are referenced but not declared under src/; the
fields follow §3 "EditingSession" of the spec). -/
structure Session where
  isEditing : Bool := false
  currentContent : String := ""
  deriving Repr, DecidableEq

/-- Untimed view of the debounce buffer of `onNoteChange`: the pending
patch of an armed timer, if any. -/
structure DebounceState where
  pending : Option NotePatch := none
  deriving Repr, DecidableEq

/-- A notification handed to the toast sink, as `(message, severity)`. -/
structure Toast where
  message : String
  severity : String
  deriving Repr, DecidableEq

/-- Combined controller state: the session fields, the debounce buffer of
`onNoteChange`, the toasts emitted so far, and the trace of patches whose
commit (the wrapped function of `onNoteChange`) has actually started. -/
structure EditorSt where
  session : Session := {}
  deb : DebounceState := {}
  toasts : List Toast := []
  commits : List NotePatch := []
  deriving Repr, DecidableEq

/-- Embeds a call to the debounced wrapper `onNoteChange.callback p`
(trailing-edge debounce): the patch is stored, the timer is re-armed, and
no commit runs now; the wrapper returns before the wrapped function
runs. -/
def debCall (st : EditorSt) (p : NotePatch) : EditorSt :=
  { st with deb := { pending := some p } }

/-- Embeds the 500 ms timer elapsing: the pending patch, if any, is
committed exactly once and the buffer is disarmed. -/
def debElapse (st : EditorSt) : EditorSt :=
  match st.deb.pending with
  | some p => { st with deb := { pending := none }, commits := st.commits ++ [p] }
  | none => st

/-- Shallow embedding of `onEditorChange` (editor.ts:164-183): only when
`isEditing` is true does it forward `{ content: value() }` to
`onNoteChange.callback`; otherwise it does nothing at all. -/
def onEditorChange (st : EditorSt) (value : String) : EditorSt :=
  if st.session.isEditing then debCall st { content := some value } else st

/-- Shallow embedding of `saveNote` (editor.ts:218-232): when
`currentContent` is nonempty (JS truthiness: the empty string is falsy)
it awaits `onNoteChange.callback({ content: currentContent })` — which
only stores the patch, re-arms the debounce timer, and resolves at once,
so the `catch` branch cannot observe a commit failure — then toasts
success and sets `isEditing := false`. With empty content it does
nothing. -/
def saveNote (st : EditorSt) : EditorSt :=
  if st.session.currentContent = "" then st
  else
    let st1 := debCall st { content := some st.session.currentContent }
    { st1 with
      toasts := st1.toasts ++ [⟨"笔记已保存", "success"⟩],
      session := { st1.session with isEditing := false } }

lemma onEditorChange_skip (st : EditorSt) (v : String)
    (h : st.session.isEditing = false) : onEditorChange st v = st := by
  simp [onEditorChange, h]

lemma onEditorChange_foldl_skip (st : EditorSt) (vs : List String)
    (h : st.session.isEditing = false) : vs.foldl onEditorChange st = st := by
  induction vs with
  | nil => rfl
  | cons v vs ih => rw [List.foldl_cons, onEditorChange_skip st v h, ih]

/-- C10: an editor change event delivered while `isEditing` is false
schedules nothing with the debounced buffer and mutates no session
state — `onEditorChange` is the identity; the commit-scheduling path is
entered only in edit mode. -/
theorem onEditorChange_requires_editing (st : EditorSt) (v : String)
    (h : st.session.isEditing = false) : onEditorChange st v = st :=
  onEditorChange_skip st v h

/-- Concrete run: an editor change outside edit mode leaves the whole
controller state untouched. -/
theorem onEditorChange_requires_editing_witness :
    onEditorChange { session := { isEditing := false, currentContent := "x" } } "y" =
      { session := { isEditing := false, currentContent := "x" } } :=
  onEditorChange_requires_editing
    { session := { isEditing := false, currentContent := "x" } } "y" rfl

/-- C1 fails on the code: evaluating `saveNote` on a session in edit mode
holding the draft "draft" shows that no commit has run when `saveNote`
returns — the draft merely sits in the debounce buffer, to be committed
500 ms later — while the success toast has already been emitted and
`isEditing` already cleared, so neither tracks the commit outcome and a
later commit failure cannot reach `saveNote`'s dead `catch`. The
empty-content no-op half of the claim does hold, shown on an empty
draft. -/
theorem saveNote_schedules_only_code_bug :
    (saveNote { session := { isEditing := true, currentContent := "draft" } }).commits
        = [] ∧
    (saveNote { session := { isEditing := true, currentContent := "draft" } }).deb.pending
        = some { content := some "draft" } ∧
    (saveNote { session := { isEditing := true, currentContent := "draft" } }).toasts
        = [⟨"笔记已保存", "success"⟩] ∧
    (saveNote { session := { isEditing := true, currentContent := "draft" } }).session.isEditing
        = false ∧
    saveNote { session := { isEditing := true, currentContent := "" } } =
      { session := { isEditing := true, currentContent := "" } } := by
  refine ⟨rfl, rfl, rfl, rfl, rfl⟩

/-- C6 fails as stated in its claimed mechanism: `saveNote` does not
flush — on a state with an armed debounce timer, the call executes no
commit and leaves a timer pending (now holding the draft), refuting
"executes the commit immediately and cancels any pending debounce
timer". The no-duplicate-commit conclusion itself survives; see the
amended theorem. -/
theorem saveNote_does_not_flush_counterexample :
    (saveNote { session := { isEditing := true, currentContent := "snap" },
                deb := { pending := some { content := some "old" } } }).commits = [] ∧
    (saveNote { session := { isEditing := true, currentContent := "snap" },
                deb := { pending := some { content := some "old" } } }).deb.pending
      = some { content := some "snap" } :=
  ⟨rfl, rfl⟩

/-- C6 amended: `saveNote` does not flush the buffer; it routes the draft
through the same debounced wrapper. Still, a `saveNote` (on a controller
with no prior commits and a nonempty draft) followed immediately by any
sequence of further edit events produces exactly one commit when the
timer elapses, and it carries the `saveNote` draft — the further edits
are dropped because `saveNote` left edit mode — so no duplicate commit
for the same draft snapshot ever fires. -/
theorem saveNote_then_edits_single_commit (st : EditorSt) (vs : List String)
    (hq : st.commits = []) (hc : st.session.currentContent ≠ "") :
    (debElapse (vs.foldl onEditorChange (saveNote st))).commits =
      [{ content := some st.session.currentContent }] := by
  have hs : saveNote st =
      { session := { st.session with isEditing := false },
        deb := { pending := some { content := some st.session.currentContent } },
        toasts := st.toasts ++ [⟨"笔记已保存", "success"⟩],
        commits := st.commits } := by
    simp [saveNote, hc, debCall]
  have hskip : vs.foldl onEditorChange (saveNote st) = saveNote st := by
    apply onEditorChange_foldl_skip
    rw [hs]
  rw [hskip, hs, hq]
  simp [debElapse]

/-- Concrete run of the amended claim: a save of the draft "snap2"
followed by two further edits yields, after the timer elapses, the single
commit `{ content := "snap2" }`. -/
theorem saveNote_then_edits_single_commit_witness :
    (debElapse (["e1", "e2"].foldl onEditorChange
        (saveNote { session := { isEditing := true, currentContent := "snap2" } }))).commits =
      [{ content := some "snap2" }] := by
  have h := saveNote_then_edits_single_commit
    { session := { isEditing := true, currentContent := "snap2" } } ["e1", "e2"]
    rfl (by decide)
  exact h

/-- Modelled from the spec: `ROOT_ID`, the root sentinel parent id from
libs/shared/tree (not under src/). -/
def ROOT_ID : String := "root"

/-- Navigation context read by the commit: whether `router.query` has the
key `new`, the `pid` query parameter (`none` when absent), and
`router.asPath`. -/
structure Router where
  queryNew : Bool := false
  queryPid : Option String := none
  asPath : String := "/"
  deriving Repr, DecidableEq

/-- Embeds `(router.query.pid as string) || ROOT_ID` (editor.ts:61): JS
`||` falls back to `ROOT_ID` on an absent or empty-string pid. -/
def pidOrRoot (qp : Option String) : String :=
  match qp with
  | some p => if p = "" then ROOT_ID else p
  | none => ROOT_ID

/-- Arguments `{ ...note, ...data }` passed to `createNote`: the session's
note spread under the patch. -/
structure CreateArgs where
  base : Option NoteModel
  patch : NotePatch
  deriving Repr, DecidableEq

/-- Effects of one debounced commit: the `createNote` call if made, the
`updateNote` patch if made, and the `router.replace` target with its
`shallow` flag if navigation was replaced. -/
structure CommitEffects where
  created : Option CreateArgs := none
  updated : Option NotePatch := none
  replacedTo : Option (String × Bool) := none
  deriving Repr, DecidableEq

/-- Shallow embedding of the wrapped function of `onNoteChange`
(editor.ts:57-71), the commit that runs when the debounce fires.
`isNew = has(router.query, 'new')` routes to creation — mutating the
patch's `pid` to the query pid with the `ROOT_ID` fallback, calling
`createNote({ ...note, ...data })`, and, when `router.asPath` differs
from `/{item?.id}`, shallow-replacing the location with it (dropping the
query, so the `new` intent disappears) — or, without the `new` intent, to
`updateNote(data)`. `createResult` is the id of the note returned by
`createNote`; `none` embeds an undefined result, which the source
stringifies into the address "/undefined". Returns the persistence and
navigation effects together with the router state after the commit. -/
def onNoteChangeCommit (rt : Router) (note : Option NoteModel) (data : NotePatch)
    (createResult : Option String) : CommitEffects × Router :=
  if rt.queryNew then
    let data2 : NotePatch := { data with pid := some (pidOrRoot rt.queryPid) }
    let noteUrl := "/" ++ (match createResult with | some i => i | none => "undefined")
    if rt.asPath ≠ noteUrl then
      ({ created := some ⟨note, data2⟩, replacedTo := some (noteUrl, true) },
       { queryNew := false, queryPid := none, asPath := noteUrl })
    else
      ({ created := some ⟨note, data2⟩ }, rt)
  else
    ({ updated := some data }, rt)

/-- C3: a commit dispatched under the `new` navigation intent attaches
the parent id from the query (falling back to `ROOT_ID`) and invokes
`createNote` — never `updateNote`; on success, the location is
shallow-replaced with the created note's canonical address `/{id}`
exactly when it does not already point there; without the `new` intent
the commit invokes `updateNote` with the unmodified patch and leaves
navigation alone. The branch is re-evaluated per commit: after a first
successful creating commit that replaced the location, the `new` intent
is gone, so any subsequent commit on the resulting navigation state
invokes `updateNote`, not `createNote`. -/
theorem onNoteChangeCommit_routing (rt : Router) (note : Option NoteModel)
    (data : NotePatch) (res : Option String) :
    (rt.queryNew = true →
      (onNoteChangeCommit rt note data res).1.created =
        some ⟨note, { data with pid := some (pidOrRoot rt.queryPid) }⟩ ∧
      (onNoteChangeCommit rt note data res).1.updated = none) ∧
    (∀ i, rt.queryNew = true → res = some i →
      (onNoteChangeCommit rt note data res).1.replacedTo =
        (if rt.asPath = "/" ++ i then none else some ("/" ++ i, true))) ∧
    (rt.queryNew = false →
      (onNoteChangeCommit rt note data res).1 = { updated := some data } ∧
      (onNoteChangeCommit rt note data res).2 = rt) ∧
    (∀ i, rt.queryNew = true → res = some i → rt.asPath ≠ "/" ++ i →
      (onNoteChangeCommit rt note data res).2.queryNew = false ∧
      ∀ note2 data2 res2,
        (onNoteChangeCommit (onNoteChangeCommit rt note data res).2 note2 data2 res2).1.updated
            = some data2 ∧
        (onNoteChangeCommit (onNoteChangeCommit rt note data res).2 note2 data2 res2).1.created
            = none) := by
  refine ⟨?_, ?_, ?_, ?_⟩
  · intro h
    by_cases hp : rt.asPath ≠ ("/" ++ (match res with | some i => i | none => "undefined")) <;>
      simp [onNoteChangeCommit, h, hp]
  · intro i h hres
    subst hres
    by_cases hp : rt.asPath = "/" ++ i
    · simp [onNoteChangeCommit, h, hp]
    · simp [onNoteChangeCommit, h, hp]
  · intro h
    simp [onNoteChangeCommit, h]
  · intro i h hres hp
    subst hres
    have hrt : (onNoteChangeCommit rt note data (some i)).2 =
        { queryNew := false, queryPid := none, asPath := "/" ++ i } := by
      simp [onNoteChangeCommit, h, hp]
    rw [hrt]
    exact ⟨rfl, fun note2 data2 res2 => ⟨by simp [onNoteChangeCommit], by simp [onNoteChangeCommit]⟩⟩

/-- Concrete run of the commit routing: the first commit of a new-note
session (query `new` set, no `pid`, location `/new`) creates the note
with parent `ROOT_ID` and shallow-replaces the location with `/abc123`;
a second commit on the resulting navigation state updates instead. -/
theorem onNoteChangeCommit_routing_witness :
    (onNoteChangeCommit { queryNew := true, queryPid := none, asPath := "/new" }
        none { content := some "x" } (some "abc123")).1.created =
      some ⟨none, { content := some "x", pid := some "root" }⟩ ∧
    (onNoteChangeCommit { queryNew := true, queryPid := none, asPath := "/new" }
        none { content := some "x" } (some "abc123")).1.replacedTo =
      some ("/abc123", true) ∧
    (onNoteChangeCommit
        (onNoteChangeCommit { queryNew := true, queryPid := none, asPath := "/new" }
          none { content := some "x" } (some "abc123")).2
        none { content := some "y" } none).1.updated = some { content := some "y" } := by
  have h := onNoteChangeCommit_routing
    { queryNew := true, queryPid := none, asPath := "/new" }
    none { content := some "x" } (some "abc123")
  refine ⟨?_, ?_, ?_⟩
  · have h1 := (h.1 rfl).1
    rw [h1]; decide
  · have h2 := h.2.1 "abc123" rfl rfl
    rw [h2]; decide
  · exact ((h.2.2.2 "abc123" rfl rfl (by decide)).2 none { content := some "y" } none).1

end Heilou
